import Mathlib

/-!
Verification of the query-processing workflow engine of the SQL-agent backend
(backend/sql_agent.py together with its facade in backend/main.py).

The engine is a LangGraph state graph over a dictionary-shaped per-run state
(AgentState).  We embed the state as a record, each graph node as a function
on the record, each conditional-edge decision function as a function into a
small enumeration mirroring the edge-label strings of the source, and the
graph interpreter as a fuel-indexed loop that also records the trace of
(node, state-after-node) pairs.  The four external collaborators (LLM chain
for generation and formatting, SQL validator, database executor) are modelled
as per-attempt behaviour oracles: each call either raises an exception
(modelled as a behaviour value, converted to an error message at the adapter
boundary exactly as the except-blocks of the source do), reports the shared
handle as unavailable, or returns its native result.

Timing fields of the source state (start_time, total_execution_time) and the
logging prints are not modelled; no claim depends on them.
-/

/-- Result of validate_sql_query as stored by validate_sql_node:
a dict with keys is_valid, error_message, warnings. -/
structure Verdict where
  is_valid : Bool
  vmessage : Option String
  warnings : List String
deriving Repr, DecidableEq

/-- Per-run workflow state, mirroring the AgentState TypedDict of
backend/sql_agent.py (timing fields omitted). -/
structure AgentState where
  question : String
  user_id : Option String
  current_attempt : Nat
  sql_query : Option String
  validation_result : Option Verdict
  query_results : Option String
  execution_success : Bool
  final_response : Option String
  error_message : Option String
  row_count : Option Nat
deriving Repr, DecidableEq

/-- Python truthiness of an Optional(str) value: None and the empty string
are falsy, every other string is truthy. -/
def optStrTruthy : Option String → Bool
  | none => false
  | some s => s != ""

/-- Truthiness test used by the decision functions on state.error_message. -/
def errTruthy (s : AgentState) : Bool := optStrTruthy s.error_message

/-- Behaviour of one generate_sql_node call: the chain manager may be
unavailable, chain_manager.process_question may raise, or it returns a SQL
string. -/
inductive GenBeh where
  | chainUnavailable : GenBeh
  | raisesExc (msg : String) : GenBeh
  | ok (sql : String) : GenBeh
deriving Repr, DecidableEq

/-- Behaviour of one validate_sql_query call: it may raise, or it returns a
validation result. -/
inductive ValBeh where
  | raisesExc (msg : String) : ValBeh
  | verdict (v : Verdict) : ValBeh
deriving Repr, DecidableEq

/-- Behaviour of one execute_sql_node call: database tools may be
unavailable, db_tools.execute_query may raise, or it returns the tuple
(success, result-or-error text, optional row count) as in postgres.py. -/
inductive ExecBeh where
  | toolsUnavailable : ExecBeh
  | raisesExc (msg : String) : ExecBeh
  | result (success : Bool) (results : String) (row_count : Option Nat) : ExecBeh
deriving Repr, DecidableEq

/-- Behaviour of one format_response_node call: the chain manager may be
unavailable, chain_manager.format_response may raise, or it returns the
answer text. -/
inductive FmtBeh where
  | chainUnavailable : FmtBeh
  | raisesExc (msg : String) : FmtBeh
  | ok (response : String) : FmtBeh
deriving Repr, DecidableEq

/-- One run's collaborator behaviours, indexed by the attempt number at which
the stage is invoked (each stage runs at most once per attempt). -/
structure Env where
  gen : Nat → GenBeh
  val : Nat → ValBeh
  exec : Nat → ExecBeh
  fmt : Nat → FmtBeh

/-- Node initialize: reset all per-run fields and set current_attempt to 1
(initialize_state in the source; timing field assignments omitted). -/
def initialize_state (s : AgentState) : AgentState :=
  { s with current_attempt := 1, sql_query := none, validation_result := none,
           query_results := none, execution_success := false,
           final_response := none, error_message := none, row_count := none }

/-- Node generate_sql (generate_sql_node in the source): an unavailable chain
manager or a raised exception records error_message; on success the SQL text
is stored in sql_query. -/
def generate_sql_node (beh : GenBeh) (s : AgentState) : AgentState :=
  match beh with
  | .chainUnavailable => { s with error_message := some "LLM chains not available" }
  | .raisesExc msg =>
      { s with error_message := some ("SQL generation failed: " ++ msg) }
  | .ok sql => { s with sql_query := some sql }

/-- Node validate_sql (validate_sql_node in the source): a falsy sql_query
records an error; a raised exception records an error; otherwise the verdict
is stored in validation_result. -/
def validate_sql_node (beh : ValBeh) (s : AgentState) : AgentState :=
  if !optStrTruthy s.sql_query then
    { s with error_message := some "No SQL query to validate" }
  else
    match beh with
    | .raisesExc msg =>
        { s with error_message := some ("SQL validation failed: " ++ msg) }
    | .verdict v => { s with validation_result := some v }

/-- Node execute_sql (execute_sql_node in the source): a falsy sql_query or
unavailable database tools record an error; a raised exception records an
error and clears execution_success; otherwise the (success, results,
row_count) tuple is stored. -/
def execute_sql_node (beh : ExecBeh) (s : AgentState) : AgentState :=
  if !optStrTruthy s.sql_query then
    { s with error_message := some "No SQL query to execute" }
  else
    match beh with
    | .toolsUnavailable => { s with error_message := some "Database tools not available" }
    | .raisesExc msg =>
        { s with error_message := some ("SQL execution failed: " ++ msg),
                 execution_success := false }
    | .result ok results rc =>
        { s with execution_success := ok, query_results := some results,
                 row_count := rc }

/-- Node format_response (format_response_node in the source): a failed
execution or falsy query_results records an error; an unavailable chain
manager or raised exception records an error; otherwise the formatted answer
is stored in final_response. -/
def format_response_node (beh : FmtBeh) (s : AgentState) : AgentState :=
  if !s.execution_success || !optStrTruthy s.query_results then
    { s with error_message := some "No valid query results to format" }
  else
    match beh with
    | .chainUnavailable =>
        { s with error_message := some "LLM chains not available for response formatting" }
    | .raisesExc msg =>
        { s with error_message := some ("Response formatting failed: " ++ msg) }
    | .ok response => { s with final_response := some response }

/-- Node finalize (finalize_state_node in the source): it only computes the
elapsed time and prints a summary, neither of which is modelled, so it is the
identity on the modelled fields. -/
def finalize_state_node (s : AgentState) : AgentState := s

/-- Node increment_retry (increment_retry_node in the source): bump the
attempt counter and reset sql_query, validation_result, query_results and
execution_success.  Note the source does not touch error_message, row_count
or final_response here. -/
def increment_retry_node (s : AgentState) : AgentState :=
  { s with current_attempt := s.current_attempt + 1,
           sql_query := none, validation_result := none,
           query_results := none, execution_success := false }

/-- Edge labels returned by the decision functions; the constructor names are
the literal strings of the source. -/
inductive Decision where
  | validate : Decision
  | execute : Decision
  | format : Decision
  | retry_or_error : Decision
  | retry : Decision
  | error : Decision
deriving Repr, DecidableEq

/-- Decision after generate_sql (should_validate_sql in the source). -/
def should_validate_sql (s : AgentState) : Decision :=
  if errTruthy s || !optStrTruthy s.sql_query then .error else .validate

/-- Reading state.validation_result.is_valid with default False as the source
does via dict.get.  On the modelled paths the None case is unreachable: the
source would raise there, but should_execute_sql tests error_message first
and validation_result is None only together with a truthy error_message. -/
def validationIsValid : Option Verdict → Bool
  | none => false
  | some v => v.is_valid

/-- Decision after validate_sql (should_execute_sql in the source). -/
def should_execute_sql (s : AgentState) : Decision :=
  if errTruthy s then .error
  else if !validationIsValid s.validation_result then .retry_or_error
  else .execute

/-- Decision after execute_sql (should_format_response in the source). -/
def should_format_response (s : AgentState) : Decision :=
  if errTruthy s then .error
  else if !s.execution_success then .retry_or_error
  else .format

/-- Decision after increment_retry (should_retry_or_end in the source);
MAX_SQL_RETRIES is the parameter M. -/
def should_retry_or_end (M : Nat) (s : AgentState) : Decision :=
  if s.current_attempt < M then .retry else .error

/-- The graph nodes of the workflow (the init constructor is the node the
source registers under the name initialize). -/
inductive Node where
  | init : Node
  | generate_sql : Node
  | validate_sql : Node
  | execute_sql : Node
  | format_response : Node
  | increment_retry : Node
  | finalize : Node
deriving Repr, DecidableEq

/-- Run one graph node on the state, consulting the behaviour oracle at the
current attempt for the stage nodes. -/
def runNode (env : Env) : Node → AgentState → AgentState
  | .init, s => initialize_state s
  | .generate_sql, s => generate_sql_node (env.gen s.current_attempt) s
  | .validate_sql, s => validate_sql_node (env.val s.current_attempt) s
  | .execute_sql, s => execute_sql_node (env.exec s.current_attempt) s
  | .format_response, s => format_response_node (env.fmt s.current_attempt) s
  | .increment_retry, s => increment_retry_node s
  | .finalize, s => finalize_state_node s

/-- The conditional-edge table of SQLAgent._create_workflow: given the node
that just ran and the resulting state, the next node, or none for END. -/
def route (M : Nat) : Node → AgentState → Option Node
  | .init, _ => some .generate_sql
  | .generate_sql, s =>
      match should_validate_sql s with
      | .validate => some .validate_sql
      | _ => some .finalize
  | .validate_sql, s =>
      match should_execute_sql s with
      | .execute => some .execute_sql
      | .retry_or_error => some .increment_retry
      | _ => some .finalize
  | .execute_sql, s =>
      match should_format_response s with
      | .format => some .format_response
      | .retry_or_error => some .increment_retry
      | _ => some .finalize
  | .format_response, _ => some .finalize
  | .increment_retry, s =>
      match should_retry_or_end M s with
      | .retry => some .generate_sql
      | _ => some .finalize
  | .finalize, _ => none

/-- Graph interpreter with step fuel (LangGraph executes the graph with a
bounded recursion limit): runs nodes and follows edges until END, returning
the final state and the trace of (node, state-after-node) pairs.  The fuel is
a step bound of the embedding; enough fuel always exists (proved below). -/
def runLoopT (env : Env) (M : Nat) : Nat → Node → AgentState → Option (AgentState × List (Node × AgentState))
  | 0, _, _ => none
  | fuel + 1, n, s =>
      let s2 := runNode env n s
      match route M n s2 with
      | none => some (s2, [(n, s2)])
      | some n2 => (runLoopT env M fuel n2 s2).map (fun r => (r.1, (n, s2) :: r.2))

/-- Number of generate_sql executions recorded in a trace. -/
def genCalls (tr : List (Node × AgentState)) : Nat :=
  tr.countP (fun p => p.1 == Node.generate_sql)

/-- The initial state dict built by SQLAgent.process_query before invoking
the graph (timing fields omitted). -/
def initialAgentState (question : String) (user_id : Option String) : AgentState :=
  { question := question, user_id := user_id, current_attempt := 0,
    sql_query := none, validation_result := none, query_results := none,
    execution_success := false, final_response := none, error_message := none,
    row_count := none }

/-- A full workflow run: invoke the compiled graph at its entry node on the
initial state, with fuel ample for the retry ceiling M. -/
def workflowRunT (env : Env) (M : Nat) (question : String) (user_id : Option String) :
    Option (AgentState × List (Node × AgentState)) :=
  runLoopT env M (5 * M + 6) .init (initialAgentState question user_id)

/-- The caller-facing response record (the QueryResponse model as constructed
by SQLAgent.process_query; the execution_time field is timing and omitted). -/
structure QueryResponse where
  success : Bool
  answer : String
  sql_query : Option String
  row_count : Option Nat
  error_message : Option String
deriving Repr, DecidableEq

/-- Python str() rendering of an Optional(str) as interpolated by an f-string:
None renders as the text None. -/
def pyStr : Option String → String
  | none => "None"
  | some s => s

/-- Mapping of the final graph state to the QueryResponse, mirroring the two
branches of SQLAgent.process_query.  The source reads
final_state.get(error_message-key, fallback text): since the initial state
sets every key, the key is always present and the stored value (possibly
None) is returned, so the fallback text is inert and a missing error renders
as None inside the apology f-string. -/
def process_query_result (final : AgentState) : QueryResponse :=
  if optStrTruthy final.final_response then
    { success := true, answer := final.final_response.getD "",
      sql_query := final.sql_query, row_count := final.row_count,
      error_message := none }
  else
    { success := false,
      answer := "I apologize, but I couldn't process your question: " ++ pyStr final.error_message,
      sql_query := final.sql_query, row_count := none,
      error_message := final.error_message }

/-- The response returned by the outer except-block of
SQLAgent.process_query when the graph invocation itself fails. -/
def criticalErrorResponse : QueryResponse :=
  { success := false,
    answer := "I encountered a technical error while processing your question. Please try again later.",
    sql_query := none, row_count := none,
    error_message := some "Agent workflow failed" }

/-- SQLAgent.process_query: run the workflow and map the final state to a
QueryResponse; the except-branch response stands in for the fuel-exhausted
case, which is proved unreachable below. -/
def sqlagent_process_query (env : Env) (M : Nat) (question : String)
    (user_id : Option String) : QueryResponse :=
  match workflowRunT env M question user_id with
  | some (final, _) => process_query_result final
  | none => criticalErrorResponse

/-- Per-attempt fields that a retry is expected to leave cleared: the four
fields reset by increment_retry_node, plus error_message, which is None on
every reachable entry to the retry node. -/
def clearedAfterRetry (s : AgentState) : Prop :=
  s.sql_query = none ∧ s.validation_result = none ∧ s.query_results = none ∧
  s.execution_success = false ∧ s.error_message = none

/-- The state right after the initialize node of a run on question q. -/
def freshState (q : String) (uid : Option String) : AgentState :=
  { question := q, user_id := uid, current_attempt := 1, sql_query := none,
    validation_result := none, query_results := none, execution_success := false,
    final_response := none, error_message := none, row_count := none }

/-- The terminal state of a run whose validator rejects every attempt: the
attempt counter has reached the ceiling M and nothing else was recorded. -/
def exhaustedState (q : String) (uid : Option String) (M : Nat) : AgentState :=
  { question := q, user_id := uid, current_attempt := M, sql_query := none,
    validation_result := none, query_results := none, execution_success := false,
    final_response := none, error_message := none, row_count := none }

/-- Modelled from the spec: the QueryRequest pydantic model (models.py) is not under
src/, so its request validation is taken from the spec, which states the facade
validates that question is non-empty and fails with InvalidRequest otherwise,
without invoking the Engine.  A non-empty question is processed by
SQLAgent.process_query as embedded above. -/
def facade_process (env : Env) (M : Nat) (question : String) (user_id : Option String) :
    Except String QueryResponse :=
  if question = "" then Except.error "InvalidRequest"
  else Except.ok (sqlagent_process_query env M question user_id)

/-- Modelled from the spec: the number of Generator calls a facade invocation
causes; an empty question is rejected before the Engine runs, so it causes
none. -/
def facadeGenCalls (env : Env) (M : Nat) (question : String) (user_id : Option String) : Nat :=
  if question = "" then 0
  else match workflowRunT env M question user_id with
       | some (_, tr) => genCalls tr
       | none => 0

/-- Collaborators where generation succeeds and the validator rejects every attempt. -/
def envAlwaysInvalid : Env :=
  { gen := fun _ => GenBeh.ok "SELECT * FROM customers",
    val := fun _ => ValBeh.verdict ⟨false, some "disallowed statement type", []⟩,
    exec := fun _ => ExecBeh.result true "row" (some 1),
    fmt := fun _ => FmtBeh.ok "answer" }

/-- Collaborators where the executor raises an exception on every attempt. -/
def envExecRaises : Env :=
  { gen := fun _ => GenBeh.ok "SELECT * FROM customers",
    val := fun _ => ValBeh.verdict ⟨true, none, []⟩,
    exec := fun _ => ExecBeh.raisesExc "connection reset",
    fmt := fun _ => FmtBeh.ok "answer" }

/-- Collaborators where every stage succeeds. -/
def envAllOk : Env :=
  { gen := fun _ => GenBeh.ok "SELECT * FROM customers",
    val := fun _ => ValBeh.verdict ⟨true, none, []⟩,
    exec := fun _ => ExecBeh.result true "alice@x.com\nbob@y.com" (some 2),
    fmt := fun _ => FmtBeh.ok "There are two customers." }

/-- Collaborators where the generation chain manager is unavailable. -/
def envGenDown : Env :=
  { gen := fun _ => GenBeh.chainUnavailable,
    val := fun _ => ValBeh.verdict ⟨true, none, []⟩,
    exec := fun _ => ExecBeh.result true "row" (some 1),
    fmt := fun _ => FmtBeh.ok "answer" }

/-- Collaborators where the executor succeeds but returns an empty payload. -/
def envEmptyPayload : Env :=
  { gen := fun _ => GenBeh.ok "SELECT * FROM customers",
    val := fun _ => ValBeh.verdict ⟨true, none, []⟩,
    exec := fun _ => ExecBeh.result true "" none,
    fmt := fun _ => FmtBeh.ok "answer" }

/-- State at the execute stage used to witness the execute-stage routing. -/
def executeStageState : AgentState :=
  { freshState "list customers" none with sql_query := some "SELECT * FROM customers" }

/-- Final state of a run whose generation chain is unavailable. -/
def genDownFinal : AgentState :=
  { freshState "list customers" none with error_message := some "LLM chains not available" }

/-- A string with a nonempty prefix is nonempty; every error message the
engine records has a nonempty literal prefix. -/
theorem append_ne_empty_left (a b : String) (h : a.length ≠ 0) : a ++ b ≠ "" := by
  intro hab
  have hlen : (a ++ b).length = 0 := by rw [hab]; rfl
  rw [String.length_append] at hlen
  omega

/-- Running the loop with more fuel preserves any successful result. -/
theorem runLoopT_mono (env : Env) (M : Nat) :
    ∀ f f' n s r, runLoopT env M f n s = some r → f ≤ f' →
      runLoopT env M f' n s = some r := by
  intro f
  induction f with
  | zero => intro f' n s r h; simp [runLoopT] at h
  | succ f ih =>
    intro f' n s r h hle
    obtain ⟨f'', rfl⟩ : ∃ f'', f' = f'' + 1 := ⟨f' - 1, by omega⟩
    rw [runLoopT] at h ⊢
    cases hroute : route M n (runNode env n s) with
    | none => simpa [hroute] using h
    | some n2 =>
      simp only [hroute, Option.map_eq_some'] at h ⊢
      obtain ⟨a, ha, rfl⟩ := h
      exact ⟨a, ih f'' n2 _ a ha (by omega), rfl⟩

/-- One interpreter step: run the node, then follow the routed edge. -/
theorem runLoopT_step (env : Env) (M f : Nat) (n : Node) (s s2 : AgentState) (n2 : Node)
    (hs2 : runNode env n s = s2) (hroute : route M n s2 = some n2) :
    runLoopT env M (f + 1) n s =
      (runLoopT env M f n2 s2).map (fun r => (r.1, (n, s2) :: r.2)) := by
  subst hs2; simp [runLoopT, hroute]

/-- Final interpreter step: run the node and stop when the edge table says END. -/
theorem runLoopT_last (env : Env) (M f : Nat) (n : Node) (s s2 : AgentState)
    (hs2 : runNode env n s = s2) (hroute : route M n s2 = none) :
    runLoopT env M (f + 1) n s = some (s2, [(n, s2)]) := by
  subst hs2; simp [runLoopT, hroute]

/-- The format node never changes the attempt counter. -/
theorem format_response_node_attempt (beh : FmtBeh) (s : AgentState) :
    (format_response_node beh s).current_attempt = s.current_attempt := by
  cases beh <;> simp [format_response_node] <;> split <;> rfl


/-- Master cycle lemma: from the generate node in any state with no recorded
error and at most b attempts left before the ceiling M, the run reaches END
within 5 b + 5 interpreter steps, makes at most b + 1 further Generator
calls, every state produced by the retry node has its per-attempt fields
cleared, and no state's attempt counter exceeds max (a + 1) M where a is the
entry attempt. -/
theorem run_from_generate (env : Env) (M : Nat) :
    ∀ b s, M ≤ s.current_attempt + b → s.error_message = none →
      ∃ r tr, runLoopT env M (5 * b + 5) Node.generate_sql s = some (r, tr) ∧
        genCalls tr ≤ b + 1 ∧
        (∀ p ∈ tr, p.1 = Node.increment_retry → clearedAfterRetry p.2) ∧
        (∀ p ∈ tr, p.2.current_attempt ≤ max (s.current_attempt + 1) M) := by
  intro b
  induction b using Nat.strong_induction_on with
  | _ b ih =>
  intro s hM herr
  cases hg : env.gen s.current_attempt with
  | chainUnavailable =>
    have n1 : runNode env Node.generate_sql s = { s with error_message := some "LLM chains not available" } := by
      simp [runNode, hg, generate_sql_node]
    have r1 : route M Node.generate_sql { s with error_message := some "LLM chains not available" } = some Node.finalize := by
      simp [route, should_validate_sql, errTruthy, optStrTruthy]
    have n2 : runNode env Node.finalize { s with error_message := some "LLM chains not available" } = { s with error_message := some "LLM chains not available" } := by
      simp [runNode, finalize_state_node]
    have r2 : route M Node.finalize ({ s with error_message := some "LLM chains not available" } : AgentState) = none := by
      simp [route]
    have hrun : runLoopT env M (5 * b + 5) Node.generate_sql s =
        some ({ s with error_message := some "LLM chains not available" },
          [(Node.generate_sql, { s with error_message := some "LLM chains not available" }),
           (Node.finalize, { s with error_message := some "LLM chains not available" })]) := by
      rw [show (5 * b + 5 : Nat) = 5 * b + 4 + 1 from rfl, runLoopT_step env M _ _ _ _ _ n1 r1,
          show (5 * b + 4 : Nat) = 5 * b + 3 + 1 from rfl, runLoopT_last env M _ _ _ _ n2 r2]
      simp
    refine ⟨_, _, hrun, ?_, ?_, ?_⟩
    · simp [genCalls]
    · simp [List.forall_mem_cons]
    · simp [List.forall_mem_cons]; try omega
  | raisesExc m =>
    have hne : ("SQL generation failed: " ++ m) ≠ "" := append_ne_empty_left _ _ (by decide)
    have n1 : runNode env Node.generate_sql s = { s with error_message := some ("SQL generation failed: " ++ m) } := by
      simp [runNode, hg, generate_sql_node]
    have r1 : route M Node.generate_sql { s with error_message := some ("SQL generation failed: " ++ m) } = some Node.finalize := by
      simp [route, should_validate_sql, errTruthy, optStrTruthy, hne]
    have n2 : runNode env Node.finalize { s with error_message := some ("SQL generation failed: " ++ m) } = { s with error_message := some ("SQL generation failed: " ++ m) } := by
      simp [runNode, finalize_state_node]
    have r2 : route M Node.finalize ({ s with error_message := some ("SQL generation failed: " ++ m) } : AgentState) = none := by
      simp [route]
    have hrun : runLoopT env M (5 * b + 5) Node.generate_sql s =
        some ({ s with error_message := some ("SQL generation failed: " ++ m) },
          [(Node.generate_sql, { s with error_message := some ("SQL generation failed: " ++ m) }),
           (Node.finalize, { s with error_message := some ("SQL generation failed: " ++ m) })]) := by
      rw [show (5 * b + 5 : Nat) = 5 * b + 4 + 1 from rfl, runLoopT_step env M _ _ _ _ _ n1 r1,
          show (5 * b + 4 : Nat) = 5 * b + 3 + 1 from rfl, runLoopT_last env M _ _ _ _ n2 r2]
      simp
    refine ⟨_, _, hrun, ?_, ?_, ?_⟩
    · simp [genCalls]
    · simp [List.forall_mem_cons]
    · simp [List.forall_mem_cons]; try omega
  | ok q =>
    by_cases hq : q = ""
    · subst hq
      have n1 : runNode env Node.generate_sql s = { s with sql_query := some "" } := by
        simp [runNode, hg, generate_sql_node]
      have r1 : route M Node.generate_sql { s with sql_query := some "" } = some Node.finalize := by
        simp [route, should_validate_sql, errTruthy, optStrTruthy, herr]
      have n2 : runNode env Node.finalize { s with sql_query := some "" } = { s with sql_query := some "" } := by
        simp [runNode, finalize_state_node]
      have r2 : route M Node.finalize ({ s with sql_query := some "" } : AgentState) = none := by
        simp [route]
      have hrun : runLoopT env M (5 * b + 5) Node.generate_sql s =
          some ({ s with sql_query := some "" },
            [(Node.generate_sql, { s with sql_query := some "" }),
             (Node.finalize, { s with sql_query := some "" })]) := by
        rw [show (5 * b + 5 : Nat) = 5 * b + 4 + 1 from rfl, runLoopT_step env M _ _ _ _ _ n1 r1,
            show (5 * b + 4 : Nat) = 5 * b + 3 + 1 from rfl, runLoopT_last env M _ _ _ _ n2 r2]
        simp
      refine ⟨_, _, hrun, ?_, ?_, ?_⟩
      · simp [genCalls]
      · simp [List.forall_mem_cons]
      · simp [List.forall_mem_cons]; try omega
    · have n1 : runNode env Node.generate_sql s = { s with sql_query := some q } := by
        simp [runNode, hg, generate_sql_node]
      have r1 : route M Node.generate_sql { s with sql_query := some q } = some Node.validate_sql := by
        simp [route, should_validate_sql, errTruthy, optStrTruthy, herr, hq]
      cases hv : env.val s.current_attempt with
      | raisesExc m =>
        have hne : ("SQL validation failed: " ++ m) ≠ "" := append_ne_empty_left _ _ (by decide)
        have n2 : runNode env Node.validate_sql { s with sql_query := some q } = { s with sql_query := some q, error_message := some ("SQL validation failed: " ++ m) } := by
          simp [runNode, hv, validate_sql_node, optStrTruthy, hq]
        have r2 : route M Node.validate_sql { s with sql_query := some q, error_message := some ("SQL validation failed: " ++ m) } = some Node.finalize := by
          simp [route, should_execute_sql, errTruthy, optStrTruthy, hne]
        have n3 : runNode env Node.finalize { s with sql_query := some q, error_message := some ("SQL validation failed: " ++ m) } = { s with sql_query := some q, error_message := some ("SQL validation failed: " ++ m) } := by
          simp [runNode, finalize_state_node]
        have r3 : route M Node.finalize ({ s with sql_query := some q, error_message := some ("SQL validation failed: " ++ m) } : AgentState) = none := by
          simp [route]
        have hrun : runLoopT env M (5 * b + 5) Node.generate_sql s =
            some ({ s with sql_query := some q, error_message := some ("SQL validation failed: " ++ m) },
              [(Node.generate_sql, { s with sql_query := some q }),
               (Node.validate_sql, { s with sql_query := some q, error_message := some ("SQL validation failed: " ++ m) }),
               (Node.finalize, { s with sql_query := some q, error_message := some ("SQL validation failed: " ++ m) })]) := by
          rw [show (5 * b + 5 : Nat) = 5 * b + 4 + 1 from rfl, runLoopT_step env M _ _ _ _ _ n1 r1,
              show (5 * b + 4 : Nat) = 5 * b + 3 + 1 from rfl, runLoopT_step env M _ _ _ _ _ n2 r2,
              show (5 * b + 3 : Nat) = 5 * b + 2 + 1 from rfl, runLoopT_last env M _ _ _ _ n3 r3]
          simp
        refine ⟨_, _, hrun, ?_, ?_, ?_⟩
        · simp [genCalls]
        · simp [List.forall_mem_cons]
        · simp [List.forall_mem_cons]; try omega
      | verdict v =>
        have n2 : runNode env Node.validate_sql { s with sql_query := some q } = { s with sql_query := some q, validation_result := some v } := by
          simp [runNode, hv, validate_sql_node, optStrTruthy, hq]
        cases hvv : v.is_valid with
        | false =>
          have r2 : route M Node.validate_sql { s with sql_query := some q, validation_result := some v } = some Node.increment_retry := by
            simp [route, should_execute_sql, errTruthy, optStrTruthy, herr, validationIsValid, hvv]
          have n3 : runNode env Node.increment_retry { s with sql_query := some q, validation_result := some v } = { s with current_attempt := s.current_attempt + 1, sql_query := none, validation_result := none, query_results := none, execution_success := false } := by
            simp [runNode, increment_retry_node]
          by_cases hret : s.current_attempt + 1 < M
          · have hb2 : 2 ≤ b := by omega
            have r3 : route M Node.increment_retry { s with current_attempt := s.current_attempt + 1, sql_query := none, validation_result := none, query_results := none, execution_success := false } = some Node.generate_sql := by
              simp [route, should_retry_or_end, hret]
            obtain ⟨r, tr, hrun0, hgc, hinc, hatt⟩ :=
              ih (b - 1) (by omega)
                { s with current_attempt := s.current_attempt + 1, sql_query := none, validation_result := none, query_results := none, execution_success := false }
                (by simp; try omega) (by simp [herr])
            have hrun1 := runLoopT_mono env M _ (5 * b + 2) _ _ _ hrun0 (by omega)
            have hrun : runLoopT env M (5 * b + 5) Node.generate_sql s =
                some (r, (Node.generate_sql, { s with sql_query := some q }) ::
                  (Node.validate_sql, { s with sql_query := some q, validation_result := some v }) ::
                  (Node.increment_retry, { s with current_attempt := s.current_attempt + 1, sql_query := none, validation_result := none, query_results := none, execution_success := false }) :: tr) := by
              rw [show (5 * b + 5 : Nat) = 5 * b + 4 + 1 from rfl, runLoopT_step env M _ _ _ _ _ n1 r1,
                  show (5 * b + 4 : Nat) = 5 * b + 3 + 1 from rfl, runLoopT_step env M _ _ _ _ _ n2 r2,
                  show (5 * b + 3 : Nat) = 5 * b + 2 + 1 from rfl, runLoopT_step env M _ _ _ _ _ n3 r3,
                  hrun1]
              simp
            refine ⟨_, _, hrun, ?_, ?_, ?_⟩
            · simp only [genCalls, List.countP_cons] at hgc ⊢
              simp at hgc ⊢
              omega
            · simp only [List.forall_mem_cons]
              exact ⟨by simp, by simp, by simp [clearedAfterRetry, herr], hinc⟩
            · simp only [List.forall_mem_cons]
              refine ⟨by simp; try omega, by simp; try omega, by simp; try omega, ?_⟩
              intro p hp
              have := hatt p hp
              simp at this
              omega
          · have r3 : route M Node.increment_retry { s with current_attempt := s.current_attempt + 1, sql_query := none, validation_result := none, query_results := none, execution_success := false } = some Node.finalize := by
              simp [route, should_retry_or_end, hret]
            have n4 : runNode env Node.finalize { s with current_attempt := s.current_attempt + 1, sql_query := none, validation_result := none, query_results := none, execution_success := false } = { s with current_attempt := s.current_attempt + 1, sql_query := none, validation_result := none, query_results := none, execution_success := false } := by
              simp [runNode, finalize_state_node]
            have r4 : route M Node.finalize ({ s with current_attempt := s.current_attempt + 1, sql_query := none, validation_result := none, query_results := none, execution_success := false } : AgentState) = none := by
              simp [route]
            have hrun : runLoopT env M (5 * b + 5) Node.generate_sql s =
                some ({ s with current_attempt := s.current_attempt + 1, sql_query := none, validation_result := none, query_results := none, execution_success := false },
                  [(Node.generate_sql, { s with sql_query := some q }),
                   (Node.validate_sql, { s with sql_query := some q, validation_result := some v }),
                   (Node.increment_retry, { s with current_attempt := s.current_attempt + 1, sql_query := none, validation_result := none, query_results := none, execution_success := false }),
                   (Node.finalize, { s with current_attempt := s.current_attempt + 1, sql_query := none, validation_result := none, query_results := none, execution_success := false })]) := by
              rw [show (5 * b + 5 : Nat) = 5 * b + 4 + 1 from rfl, runLoopT_step env M _ _ _ _ _ n1 r1,
                  show (5 * b + 4 : Nat) = 5 * b + 3 + 1 from rfl, runLoopT_step env M _ _ _ _ _ n2 r2,
                  show (5 * b + 3 : Nat) = 5 * b + 2 + 1 from rfl, runLoopT_step env M _ _ _ _ _ n3 r3,
                  show (5 * b + 2 : Nat) = 5 * b + 1 + 1 from rfl, runLoopT_last env M _ _ _ _ n4 r4]
              simp
            refine ⟨_, _, hrun, ?_, ?_, ?_⟩
            · simp [genCalls]
            · simp only [List.forall_mem_cons]
              exact ⟨by simp, by simp, by simp [clearedAfterRetry, herr], by simp [clearedAfterRetry, herr], by simp⟩
            · simp [List.forall_mem_cons]; try omega
        | true =>
          have r2 : route M Node.validate_sql { s with sql_query := some q, validation_result := some v } = some Node.execute_sql := by
            simp [route, should_execute_sql, errTruthy, optStrTruthy, herr, validationIsValid, hvv]
          cases he : env.exec s.current_attempt with
          | toolsUnavailable =>
            have n3 : runNode env Node.execute_sql { s with sql_query := some q, validation_result := some v } = { s with sql_query := some q, validation_result := some v, error_message := some "Database tools not available" } := by
              simp [runNode, he, execute_sql_node, optStrTruthy, hq]
            have r3 : route M Node.execute_sql { s with sql_query := some q, validation_result := some v, error_message := some "Database tools not available" } = some Node.finalize := by
              simp [route, should_format_response, errTruthy, optStrTruthy]
            have n4 : runNode env Node.finalize { s with sql_query := some q, validation_result := some v, error_message := some "Database tools not available" } = { s with sql_query := some q, validation_result := some v, error_message := some "Database tools not available" } := by
              simp [runNode, finalize_state_node]
            have r4 : route M Node.finalize ({ s with sql_query := some q, validation_result := some v, error_message := some "Database tools not available" } : AgentState) = none := by
              simp [route]
            have hrun : runLoopT env M (5 * b + 5) Node.generate_sql s =
                some ({ s with sql_query := some q, validation_result := some v, error_message := some "Database tools not available" },
                  [(Node.generate_sql, { s with sql_query := some q }),
                   (Node.validate_sql, { s with sql_query := some q, validation_result := some v }),
                   (Node.execute_sql, { s with sql_query := some q, validation_result := some v, error_message := some "Database tools not available" }),
                   (Node.finalize, { s with sql_query := some q, validation_result := some v, error_message := some "Database tools not available" })]) := by
              rw [show (5 * b + 5 : Nat) = 5 * b + 4 + 1 from rfl, runLoopT_step env M _ _ _ _ _ n1 r1,
                  show (5 * b + 4 : Nat) = 5 * b + 3 + 1 from rfl, runLoopT_step env M _ _ _ _ _ n2 r2,
                  show (5 * b + 3 : Nat) = 5 * b + 2 + 1 from rfl, runLoopT_step env M _ _ _ _ _ n3 r3,
                  show (5 * b + 2 : Nat) = 5 * b + 1 + 1 from rfl, runLoopT_last env M _ _ _ _ n4 r4]
              simp
            refine ⟨_, _, hrun, ?_, ?_, ?_⟩
            · simp [genCalls]
            · simp [List.forall_mem_cons]
            · simp [List.forall_mem_cons]; try omega
          | raisesExc m =>
            have hne : ("SQL execution failed: " ++ m) ≠ "" := append_ne_empty_left _ _ (by decide)
            have n3 : runNode env Node.execute_sql { s with sql_query := some q, validation_result := some v } = { s with sql_query := some q, validation_result := some v, error_message := some ("SQL execution failed: " ++ m), execution_success := false } := by
              simp [runNode, he, execute_sql_node, optStrTruthy, hq]
            have r3 : route M Node.execute_sql { s with sql_query := some q, validation_result := some v, error_message := some ("SQL execution failed: " ++ m), execution_success := false } = some Node.finalize := by
              simp [route, should_format_response, errTruthy, optStrTruthy, hne]
            have n4 : runNode env Node.finalize { s with sql_query := some q, validation_result := some v, error_message := some ("SQL execution failed: " ++ m), execution_success := false } = { s with sql_query := some q, validation_result := some v, error_message := some ("SQL execution failed: " ++ m), execution_success := false } := by
              simp [runNode, finalize_state_node]
            have r4 : route M Node.finalize ({ s with sql_query := some q, validation_result := some v, error_message := some ("SQL execution failed: " ++ m), execution_success := false } : AgentState) = none := by
              simp [route]
            have hrun : runLoopT env M (5 * b + 5) Node.generate_sql s =
                some ({ s with sql_query := some q, validation_result := some v, error_message := some ("SQL execution failed: " ++ m), execution_success := false },
                  [(Node.generate_sql, { s with sql_query := some q }),
                   (Node.validate_sql, { s with sql_query := some q, validation_result := some v }),
                   (Node.execute_sql, { s with sql_query := some q, validation_result := some v, error_message := some ("SQL execution failed: " ++ m), execution_success := false }),
                   (Node.finalize, { s with sql_query := some q, validation_result := some v, error_message := some ("SQL execution failed: " ++ m), execution_success := false })]) := by
              rw [show (5 * b + 5 : Nat) = 5 * b + 4 + 1 from rfl, runLoopT_step env M _ _ _ _ _ n1 r1,
                  show (5 * b + 4 : Nat) = 5 * b + 3 + 1 from rfl, runLoopT_step env M _ _ _ _ _ n2 r2,
                  show (5 * b + 3 : Nat) = 5 * b + 2 + 1 from rfl, runLoopT_step env M _ _ _ _ _ n3 r3,
                  show (5 * b + 2 : Nat) = 5 * b + 1 + 1 from rfl, runLoopT_last env M _ _ _ _ n4 r4]
              simp
            refine ⟨_, _, hrun, ?_, ?_, ?_⟩
            · simp [genCalls]
            · simp [List.forall_mem_cons]
            · simp [List.forall_mem_cons]; try omega
          | result ok res rc =>
            cases ok with
            | false =>
              have n3 : runNode env Node.execute_sql { s with sql_query := some q, validation_result := some v } = { s with sql_query := some q, validation_result := some v, execution_success := false, query_results := some res, row_count := rc } := by
                simp [runNode, he, execute_sql_node, optStrTruthy, hq]
              have r3 : route M Node.execute_sql { s with sql_query := some q, validation_result := some v, execution_success := false, query_results := some res, row_count := rc } = some Node.increment_retry := by
                simp [route, should_format_response, errTruthy, optStrTruthy, herr]
              have n4 : runNode env Node.increment_retry { s with sql_query := some q, validation_result := some v, execution_success := false, query_results := some res, row_count := rc } = { s with current_attempt := s.current_attempt + 1, sql_query := none, validation_result := none, query_results := none, execution_success := false, row_count := rc } := by
                simp [runNode, increment_retry_node]
              by_cases hret : s.current_attempt + 1 < M
              · have hb2 : 2 ≤ b := by omega
                have r4 : route M Node.increment_retry { s with current_attempt := s.current_attempt + 1, sql_query := none, validation_result := none, query_results := none, execution_success := false, row_count := rc } = some Node.generate_sql := by
                  simp [route, should_retry_or_end, hret]
                obtain ⟨r, tr, hrun0, hgc, hinc, hatt⟩ :=
                  ih (b - 1) (by omega)
                    { s with current_attempt := s.current_attempt + 1, sql_query := none, validation_result := none, query_results := none, execution_success := false, row_count := rc }
                    (by simp; try omega) (by simp [herr])
                have hrun1 := runLoopT_mono env M _ (5 * b + 1) _ _ _ hrun0 (by omega)
                have hrun : runLoopT env M (5 * b + 5) Node.generate_sql s =
                    some (r, (Node.generate_sql, { s with sql_query := some q }) ::
                      (Node.validate_sql, { s with sql_query := some q, validation_result := some v }) ::
                      (Node.execute_sql, { s with sql_query := some q, validation_result := some v, execution_success := false, query_results := some res, row_count := rc }) ::
                      (Node.increment_retry, { s with current_attempt := s.current_attempt + 1, sql_query := none, validation_result := none, query_results := none, execution_success := false, row_count := rc }) :: tr) := by
                  rw [show (5 * b + 5 : Nat) = 5 * b + 4 + 1 from rfl, runLoopT_step env M _ _ _ _ _ n1 r1,
                      show (5 * b + 4 : Nat) = 5 * b + 3 + 1 from rfl, runLoopT_step env M _ _ _ _ _ n2 r2,
                      show (5 * b + 3 : Nat) = 5 * b + 2 + 1 from rfl, runLoopT_step env M _ _ _ _ _ n3 r3,
                      show (5 * b + 2 : Nat) = 5 * b + 1 + 1 from rfl, runLoopT_step env M _ _ _ _ _ n4 r4,
                      hrun1]
                  simp
                refine ⟨_, _, hrun, ?_, ?_, ?_⟩
                · simp only [genCalls, List.countP_cons] at hgc ⊢
                  simp at hgc ⊢
                  omega
                · simp only [List.forall_mem_cons]
                  exact ⟨by simp, by simp, by simp, by simp [clearedAfterRetry, herr], hinc⟩
                · simp only [List.forall_mem_cons]
                  refine ⟨by simp; try omega, by simp; try omega, by simp; try omega, by simp; try omega, ?_⟩
                  intro p hp
                  have := hatt p hp
                  simp at this
                  omega
              · have r4 : route M Node.increment_retry { s with current_attempt := s.current_attempt + 1, sql_query := none, validation_result := none, query_results := none, execution_success := false, row_count := rc } = some Node.finalize := by
                  simp [route, should_retry_or_end, hret]
                have n5 : runNode env Node.finalize { s with current_attempt := s.current_attempt + 1, sql_query := none, validation_result := none, query_results := none, execution_success := false, row_count := rc } = { s with current_attempt := s.current_attempt + 1, sql_query := none, validation_result := none, query_results := none, execution_success := false, row_count := rc } := by
                  simp [runNode, finalize_state_node]
                have r5 : route M Node.finalize ({ s with current_attempt := s.current_attempt + 1, sql_query := none, validation_result := none, query_results := none, execution_success := false, row_count := rc } : AgentState) = none := by
                  simp [route]
                have hrun : runLoopT env M (5 * b + 5) Node.generate_sql s =
                    some ({ s with current_attempt := s.current_attempt + 1, sql_query := none, validation_result := none, query_results := none, execution_success := false, row_count := rc },
                      [(Node.generate_sql, { s with sql_query := some q }),
                       (Node.validate_sql, { s with sql_query := some q, validation_result := some v }),
                       (Node.execute_sql, { s with sql_query := some q, validation_result := some v, execution_success := false, query_results := some res, row_count := rc }),
                       (Node.increment_retry, { s with current_attempt := s.current_attempt + 1, sql_query := none, validation_result := none, query_results := none, execution_success := false, row_count := rc }),
                       (Node.finalize, { s with current_attempt := s.current_attempt + 1, sql_query := none, validation_result := none, query_results := none, execution_success := false, row_count := rc })]) := by
                  rw [show (5 * b + 5 : Nat) = 5 * b + 4 + 1 from rfl, runLoopT_step env M _ _ _ _ _ n1 r1,
                      show (5 * b + 4 : Nat) = 5 * b + 3 + 1 from rfl, runLoopT_step env M _ _ _ _ _ n2 r2,
                      show (5 * b + 3 : Nat) = 5 * b + 2 + 1 from rfl, runLoopT_step env M _ _ _ _ _ n3 r3,
                      show (5 * b + 2 : Nat) = 5 * b + 1 + 1 from rfl, runLoopT_step env M _ _ _ _ _ n4 r4,
                      show (5 * b + 1 : Nat) = 5 * b + 0 + 1 from rfl, runLoopT_last env M _ _ _ _ n5 r5]
                  simp
                refine ⟨_, _, hrun, ?_, ?_, ?_⟩
                · simp [genCalls]
                · simp only [List.forall_mem_cons]
                  exact ⟨by simp, by simp, by simp, by simp [clearedAfterRetry, herr], by simp [clearedAfterRetry, herr], by simp⟩
                · simp [List.forall_mem_cons]; try omega
            | true =>
              have n3 : runNode env Node.execute_sql { s with sql_query := some q, validation_result := some v } = { s with sql_query := some q, validation_result := some v, execution_success := true, query_results := some res, row_count := rc } := by
                simp [runNode, he, execute_sql_node, optStrTruthy, hq]
              have r3 : route M Node.execute_sql { s with sql_query := some q, validation_result := some v, execution_success := true, query_results := some res, row_count := rc } = some Node.format_response := by
                simp [route, should_format_response, errTruthy, optStrTruthy, herr]
              have n4 : runNode env Node.format_response { s with sql_query := some q, validation_result := some v, execution_success := true, query_results := some res, row_count := rc } = format_response_node (env.fmt s.current_attempt) { s with sql_query := some q, validation_result := some v, execution_success := true, query_results := some res, row_count := rc } := by
                simp [runNode]
              have r4 : route M Node.format_response (format_response_node (env.fmt s.current_attempt) { s with sql_query := some q, validation_result := some v, execution_success := true, query_results := some res, row_count := rc }) = some Node.finalize := by
                simp [route]
              have n5 : runNode env Node.finalize (format_response_node (env.fmt s.current_attempt) { s with sql_query := some q, validation_result := some v, execution_success := true, query_results := some res, row_count := rc }) = format_response_node (env.fmt s.current_attempt) { s with sql_query := some q, validation_result := some v, execution_success := true, query_results := some res, row_count := rc } := by
                simp [runNode, finalize_state_node]
              have r5 : route M Node.finalize (format_response_node (env.fmt s.current_attempt) { s with sql_query := some q, validation_result := some v, execution_success := true, query_results := some res, row_count := rc }) = none := by
                simp [route]
              have hrun : runLoopT env M (5 * b + 5) Node.generate_sql s =
                  some (format_response_node (env.fmt s.current_attempt) { s with sql_query := some q, validation_result := some v, execution_success := true, query_results := some res, row_count := rc },
                    [(Node.generate_sql, { s with sql_query := some q }),
                     (Node.validate_sql, { s with sql_query := some q, validation_result := some v }),
                     (Node.execute_sql, { s with sql_query := some q, validation_result := some v, execution_success := true, query_results := some res, row_count := rc }),
                     (Node.format_response, format_response_node (env.fmt s.current_attempt) { s with sql_query := some q, validation_result := some v, execution_success := true, query_results := some res, row_count := rc }),
                     (Node.finalize, format_response_node (env.fmt s.current_attempt) { s with sql_query := some q, validation_result := some v, execution_success := true, query_results := some res, row_count := rc })]) := by
                rw [show (5 * b + 5 : Nat) = 5 * b + 4 + 1 from rfl, runLoopT_step env M _ _ _ _ _ n1 r1,
                    show (5 * b + 4 : Nat) = 5 * b + 3 + 1 from rfl, runLoopT_step env M _ _ _ _ _ n2 r2,
                    show (5 * b + 3 : Nat) = 5 * b + 2 + 1 from rfl, runLoopT_step env M _ _ _ _ _ n3 r3,
                    show (5 * b + 2 : Nat) = 5 * b + 1 + 1 from rfl, runLoopT_step env M _ _ _ _ _ n4 r4,
                    show (5 * b + 1 : Nat) = 5 * b + 0 + 1 from rfl, runLoopT_last env M _ _ _ _ n5 r5]
                simp
              refine ⟨_, _, hrun, ?_, ?_, ?_⟩
              · simp [genCalls]
              · simp [List.forall_mem_cons]
              · simp [List.forall_mem_cons, format_response_node_attempt]; try omega


/-- Every full run (entered at the initialize node) terminates, with the
Generator-call, retry-clearing and attempt-counter properties carried over
from the cycle lemma. -/
theorem run_full (env : Env) (M : Nat) (q : String) (uid : Option String) :
    ∀ b, M ≤ 1 + b → 5 * b + 5 ≤ 5 * M + 5 →
    ∃ r tr, workflowRunT env M q uid = some (r, (Node.init, freshState q uid) :: tr) ∧
      genCalls tr ≤ b + 1 ∧
      (∀ p ∈ tr, p.1 = Node.increment_retry → clearedAfterRetry p.2) ∧
      (∀ p ∈ tr, p.2.current_attempt ≤ max 2 M) := by
  intro b hb hfuel
  obtain ⟨r, tr, hrun, hgc, hinc, hatt⟩ :=
    run_from_generate env M b (freshState q uid) (by simp [freshState]; omega)
      (by simp [freshState])
  have hrun2 := runLoopT_mono env M _ (5 * M + 5) _ _ _ hrun (by omega)
  have n0 : runNode env Node.init (initialAgentState q uid) = freshState q uid := by
    simp [runNode, initialize_state, initialAgentState, freshState]
  have r0 : route M Node.init (freshState q uid) = some Node.generate_sql := by
    simp [route]
  refine ⟨r, tr, ?_, hgc, hinc, ?_⟩
  · unfold workflowRunT
    rw [show (5 * M + 6 : Nat) = 5 * M + 5 + 1 from rfl,
        runLoopT_step env M _ _ _ _ _ n0 r0, hrun2]
    simp
  · intro p hp
    have := hatt p hp
    simp [freshState] at this
    omega


/-- When generation always yields a non-empty candidate and validation always
rejects it, the loop from the generate node with b attempts left ends in the
exhausted terminal state after exactly b Generator calls. -/
theorem always_invalid_loop (env : Env) (M : Nat)
    (hgen : ∀ a, ∃ sql, sql ≠ "" ∧ env.gen a = GenBeh.ok sql)
    (hval : ∀ a, ∃ v, v.is_valid = false ∧ env.val a = ValBeh.verdict v) :
    ∀ b, 1 ≤ b → ∀ s, s.current_attempt + b = M →
      s.error_message = none → s.final_response = none → s.row_count = none →
      ∃ tr, runLoopT env M (5 * b + 5) Node.generate_sql s =
          some (exhaustedState s.question s.user_id M, tr) ∧ genCalls tr = b := by
  intro b
  induction b using Nat.strong_induction_on with
  | _ b ih =>
  intro hb1 s hattempt herr hfin hrow
  obtain ⟨q, hq, hg⟩ := hgen s.current_attempt
  obtain ⟨v, hvv, hv⟩ := hval s.current_attempt
  have n1 : runNode env Node.generate_sql s = { s with sql_query := some q } := by
    simp [runNode, hg, generate_sql_node]
  have r1 : route M Node.generate_sql { s with sql_query := some q } = some Node.validate_sql := by
    simp [route, should_validate_sql, errTruthy, optStrTruthy, herr, hq]
  have n2 : runNode env Node.validate_sql { s with sql_query := some q } = { s with sql_query := some q, validation_result := some v } := by
    simp [runNode, hv, validate_sql_node, optStrTruthy, hq]
  have r2 : route M Node.validate_sql { s with sql_query := some q, validation_result := some v } = some Node.increment_retry := by
    simp [route, should_execute_sql, errTruthy, optStrTruthy, herr, validationIsValid, hvv]
  have n3 : runNode env Node.increment_retry { s with sql_query := some q, validation_result := some v } = { s with current_attempt := s.current_attempt + 1, sql_query := none, validation_result := none, query_results := none, execution_success := false } := by
    simp [runNode, increment_retry_node]
  rcases Nat.lt_or_ge 1 b with hb2 | hb2
  · -- at least two attempts remain: increment routes back to generate
    have hret : s.current_attempt + 1 < M := by omega
    have r3 : route M Node.increment_retry { s with current_attempt := s.current_attempt + 1, sql_query := none, validation_result := none, query_results := none, execution_success := false } = some Node.generate_sql := by
      simp [route, should_retry_or_end, hret]
    obtain ⟨tr, hrun0, hgc⟩ :=
      ih (b - 1) (by omega) (by omega)
        { s with current_attempt := s.current_attempt + 1, sql_query := none, validation_result := none, query_results := none, execution_success := false }
        (by simp; omega) (by simp [herr]) (by simp [hfin]) (by simp [hrow])
    have hrun1 := runLoopT_mono env M _ (5 * b + 2) _ _ _ hrun0 (by omega)
    refine ⟨(Node.generate_sql, { s with sql_query := some q }) ::
      (Node.validate_sql, { s with sql_query := some q, validation_result := some v }) ::
      (Node.increment_retry, { s with current_attempt := s.current_attempt + 1, sql_query := none, validation_result := none, query_results := none, execution_success := false }) :: tr, ?_, ?_⟩
    · rw [show (5 * b + 5 : Nat) = 5 * b + 4 + 1 from rfl, runLoopT_step env M _ _ _ _ _ n1 r1,
          show (5 * b + 4 : Nat) = 5 * b + 3 + 1 from rfl, runLoopT_step env M _ _ _ _ _ n2 r2,
          show (5 * b + 3 : Nat) = 5 * b + 2 + 1 from rfl, runLoopT_step env M _ _ _ _ _ n3 r3,
          hrun1]
      simp
    · simp only [genCalls, List.countP_cons] at hgc ⊢
      simp at hgc ⊢
      omega
  · -- final allowed attempt: the incremented counter reaches M and the run ends
    have hb1' : b = 1 := by omega
    subst hb1'
    have hret : ¬ s.current_attempt + 1 < M := by omega
    have r3 : route M Node.increment_retry { s with current_attempt := s.current_attempt + 1, sql_query := none, validation_result := none, query_results := none, execution_success := false } = some Node.finalize := by
      simp [route, should_retry_or_end, hret]
    have n4 : runNode env Node.finalize { s with current_attempt := s.current_attempt + 1, sql_query := none, validation_result := none, query_results := none, execution_success := false } = { s with current_attempt := s.current_attempt + 1, sql_query := none, validation_result := none, query_results := none, execution_success := false } := by
      simp [runNode, finalize_state_node]
    have r4 : route M Node.finalize ({ s with current_attempt := s.current_attempt + 1, sql_query := none, validation_result := none, query_results := none, execution_success := false } : AgentState) = none := by
      simp [route]
    refine ⟨[(Node.generate_sql, { s with sql_query := some q }),
      (Node.validate_sql, { s with sql_query := some q, validation_result := some v }),
      (Node.increment_retry, { s with current_attempt := s.current_attempt + 1, sql_query := none, validation_result := none, query_results := none, execution_success := false }),
      (Node.finalize, { s with current_attempt := s.current_attempt + 1, sql_query := none, validation_result := none, query_results := none, execution_success := false })], ?_, ?_⟩
    · rw [show (5 * 1 + 5 : Nat) = 5 * 1 + 4 + 1 from rfl, runLoopT_step env M _ _ _ _ _ n1 r1,
          show (5 * 1 + 4 : Nat) = 5 * 1 + 3 + 1 from rfl, runLoopT_step env M _ _ _ _ _ n2 r2,
          show (5 * 1 + 3 : Nat) = 5 * 1 + 2 + 1 from rfl, runLoopT_step env M _ _ _ _ _ n3 r3,
          show (5 * 1 + 2 : Nat) = 5 * 1 + 1 + 1 from rfl, runLoopT_last env M _ _ _ _ n4 r4]
      simp [exhaustedState, herr, hfin, hrow]
      omega
    · simp [genCalls]

/-- Full-run version of the always-invalid scenario: the run ends in the
exhausted state after exactly M - 1 Generator calls. -/
theorem always_invalid_run (env : Env) (M : Nat) (hM : 2 ≤ M)
    (hgen : ∀ a, ∃ sql, sql ≠ "" ∧ env.gen a = GenBeh.ok sql)
    (hval : ∀ a, ∃ v, v.is_valid = false ∧ env.val a = ValBeh.verdict v)
    (q : String) (uid : Option String) :
    ∃ tr, workflowRunT env M q uid =
        some (exhaustedState q uid M, (Node.init, freshState q uid) :: tr) ∧
      genCalls tr = M - 1 := by
  obtain ⟨tr, hrun, hgc⟩ :=
    always_invalid_loop env M hgen hval (M - 1) (by omega) (freshState q uid)
      (by simp [freshState]; omega) (by simp [freshState]) (by simp [freshState])
      (by simp [freshState])
  have hrun2 := runLoopT_mono env M _ (5 * M + 5) _ _ _ hrun (by omega)
  have n0 : runNode env Node.init (initialAgentState q uid) = freshState q uid := by
    simp [runNode, initialize_state, initialAgentState, freshState]
  have r0 : route M Node.init (freshState q uid) = some Node.generate_sql := by
    simp [route]
  refine ⟨tr, ?_, hgc⟩
  unfold workflowRunT
  rw [show (5 * M + 6 : Nat) = 5 * M + 5 + 1 from rfl,
      runLoopT_step env M _ _ _ _ _ n0 r0, hrun2]
  simp [freshState, exhaustedState]

/-- No graph node reads user_id: it is carried through unchanged. -/
theorem runNode_user_id (env : Env) (n : Node) (s : AgentState) (u : Option String) :
    runNode env n { s with user_id := u } = { runNode env n s with user_id := u } := by
  cases n with
  | init => simp [runNode, initialize_state]
  | generate_sql =>
    simp only [runNode]
    cases env.gen s.current_attempt <;> simp [generate_sql_node]
  | validate_sql =>
    simp only [runNode]
    cases env.val s.current_attempt <;> simp only [validate_sql_node] <;>
      split <;> simp_all
  | execute_sql =>
    simp only [runNode]
    cases env.exec s.current_attempt <;> simp only [execute_sql_node] <;>
      split <;> simp_all
  | format_response =>
    simp only [runNode]
    cases env.fmt s.current_attempt <;> simp only [format_response_node] <;>
      split <;> simp_all
  | increment_retry => simp [runNode, increment_retry_node]
  | finalize => simp [runNode, finalize_state_node]

/-- No decision function reads user_id. -/
theorem route_user_id (M : Nat) (n : Node) (s : AgentState) (u : Option String) :
    route M n { s with user_id := u } = route M n s := by
  cases n <;>
    simp [route, should_validate_sql, should_execute_sql, should_format_response,
          should_retry_or_end, errTruthy, optStrTruthy, validationIsValid]

/-- The whole interpreter run commutes with replacing user_id. -/
theorem runLoopT_user_id (env : Env) (M : Nat) :
    ∀ f n (s : AgentState) (u : Option String),
      runLoopT env M f n { s with user_id := u } =
        (runLoopT env M f n s).map
          (fun r => ({ r.1 with user_id := u },
            r.2.map (fun p => (p.1, { p.2 with user_id := u })))) := by
  intro f
  induction f with
  | zero => intro n s u; simp [runLoopT]
  | succ f ih =>
    intro n s u
    rw [runLoopT, runLoopT]
    simp only [runNode_user_id, route_user_id]
    cases hroute : route M n (runNode env n s) with
    | none => simp
    | some n2 =>
      simp only [ih n2 (runNode env n s) u, Option.map_map]
      cases runLoopT env M f n2 (runNode env n s) <;> simp

/-- The response mapping ignores user_id. -/
theorem process_query_result_user_id (r : AgentState) (u : Option String) :
    process_query_result { r with user_id := u } = process_query_result r := by
  simp only [process_query_result]

/-- The initial state differs only in user_id across caller identifiers. -/
theorem initialAgentState_user_id (q : String) (u u' : Option String) :
    ({ initialAgentState q u with user_id := u' } : AgentState) = initialAgentState q u' := by
  simp [initialAgentState]

/-- C1, claim as stated is false: with MAX_SQL_RETRIES = 3 and a validator that
reports invalid on every attempt, the run makes exactly 2 Generator calls, not
3, and the terminal state records no error message at all. -/
theorem C1_counterexample :
    (workflowRunT envAlwaysInvalid 3 "list customers" none).map
        (fun p => (genCalls p.2, p.1.error_message, p.1.final_response)) =
      some (2, none, none) ∧ (2 : Nat) ≠ 3 := by
  exact ⟨rfl, by decide⟩

/-- C1 (amended): if the Generator always returns a non-empty candidate and the
Validator reports invalid on every attempt, the run terminates in the error
state after exactly retry_ceiling - 1 Generator calls (the source increments
current_attempt before comparing it with MAX_SQL_RETRIES), and no error reason
is recorded: the terminal error_message is None, so the facade answer renders
it as the text None and the response carries error_message = None. -/
theorem C1_retry_exhaustion (env : Env) (M : Nat) (hM : 2 ≤ M)
    (hgen : ∀ a, ∃ sql, sql ≠ "" ∧ env.gen a = GenBeh.ok sql)
    (hval : ∀ a, ∃ v, v.is_valid = false ∧ env.val a = ValBeh.verdict v)
    (q : String) (uid : Option String) :
    ∃ tr, workflowRunT env M q uid =
        some (exhaustedState q uid M, (Node.init, freshState q uid) :: tr) ∧
      genCalls tr = M - 1 ∧
      sqlagent_process_query env M q uid =
        { success := false,
          answer := "I apologize, but I couldn't process your question: None",
          sql_query := none, row_count := none, error_message := none } := by
  obtain ⟨tr, hrun, hgc⟩ := always_invalid_run env M hM hgen hval q uid
  refine ⟨tr, hrun, hgc, ?_⟩
  simp [sqlagent_process_query, hrun, process_query_result, exhaustedState, optStrTruthy, pyStr]

theorem C1_witness :
    ∃ tr, workflowRunT envAlwaysInvalid 3 "list customers" none =
        some (exhaustedState "list customers" none 3,
          (Node.init, freshState "list customers" none) :: tr) ∧
      genCalls tr = 3 - 1 ∧
      sqlagent_process_query envAlwaysInvalid 3 "list customers" none =
        { success := false,
          answer := "I apologize, but I couldn't process your question: None",
          sql_query := none, row_count := none, error_message := none } :=
  C1_retry_exhaustion envAlwaysInvalid 3 (by decide)
    (fun _ => ⟨"SELECT * FROM customers", by decide, rfl⟩)
    (fun _ => ⟨⟨false, some "disallowed statement type", []⟩, rfl, rfl⟩)
    "list customers" none

/-- C2, claim as stated is false: when the Executor adapter raises on attempt 1
(with MAX_SQL_RETRIES = 3), the run takes no retry transition at all: the trace
contains zero increment_retry nodes, only one Generator call is made, and the
run ends in the terminal error state with the execution error recorded. -/
theorem C2_counterexample :
    (workflowRunT envExecRaises 3 "list customers" none).map
        (fun p => (p.2.countP (fun e => e.1 == Node.increment_retry), genCalls p.2,
          p.1.error_message, p.1.final_response)) =
      some (0, 1, some "SQL execution failed: connection reset", none) := rfl

/-- C2 (amended): after the execute stage, an Outcome with succeeded = false
routes to the retry node, but an Executor adapter failure (exception) records
error_message and routes directly to finalize, the terminal node, with no
retry. -/
theorem C2_execute_routing (M : Nat) (s : AgentState) (res : String) (rc : Option Nat)
    (m : String) (herr : s.error_message = none) (hsql : optStrTruthy s.sql_query = true) :
    route M Node.execute_sql (execute_sql_node (ExecBeh.result false res rc) s) =
      some Node.increment_retry ∧
    route M Node.execute_sql (execute_sql_node (ExecBeh.raisesExc m) s) =
      some Node.finalize := by
  have hne : ("SQL execution failed: " ++ m) ≠ "" := append_ne_empty_left _ _ (by decide)
  have hstep1 : execute_sql_node (ExecBeh.result false res rc) s =
      { s with execution_success := false, query_results := some res, row_count := rc } := by
    simp [execute_sql_node, hsql]
  have hstep2 : execute_sql_node (ExecBeh.raisesExc m) s =
      { s with error_message := some ("SQL execution failed: " ++ m),
               execution_success := false } := by
    simp [execute_sql_node, hsql]
  constructor
  · rw [hstep1]
    simp [route, should_format_response, errTruthy, optStrTruthy, herr]
  · rw [hstep2]
    simp [route, should_format_response, errTruthy, optStrTruthy, hne]

theorem C2_witness :
    route 3 Node.execute_sql
        (execute_sql_node (ExecBeh.result false "bad join" none) executeStageState) =
      some Node.increment_retry ∧
    route 3 Node.execute_sql
        (execute_sql_node (ExecBeh.raisesExc "connection reset") executeStageState) =
      some Node.finalize :=
  C2_execute_routing 3 executeStageState "bad join" none "connection reset" rfl rfl

/-- C3: for every question and every collaborator behaviour, the workflow run
terminates (the interpreter returns a final state within its step bound) and
the number of Generator calls is at most the retry ceiling M. -/
theorem C3_terminates_bounded (env : Env) (M : Nat) (q : String) (uid : Option String)
    (hM : 1 ≤ M) :
    ∃ final tr, workflowRunT env M q uid = some (final, tr) ∧ genCalls tr ≤ M := by
  obtain ⟨r, tr, hrun, hgc, _, _⟩ := run_full env M q uid (M - 1) (by omega) (by omega)
  refine ⟨r, _, hrun, ?_⟩
  simp only [genCalls, List.countP_cons] at hgc ⊢
  simp at hgc ⊢
  omega

theorem C3_witness :
    1 ≤ 3 ∧ ∃ final tr, workflowRunT envAllOk 3 "list customers" none = some (final, tr) ∧
      genCalls tr ≤ 3 :=
  ⟨by decide, C3_terminates_bounded envAllOk 3 "list customers" none (by decide)⟩

/-- C4: if the Generator adapter fails on attempt 1 (chain unavailable or an
exception), the run goes straight to the terminal error state: exactly one
Generator call in total, no final response, an error recorded, and the
caller-facing result has success = false. -/
theorem C4_generation_failure_fatal (env : Env) (M : Nat) (q : String) (uid : Option String)
    (hfail : env.gen 1 = GenBeh.chainUnavailable ∨ ∃ m, env.gen 1 = GenBeh.raisesExc m) :
    ∃ final tr, workflowRunT env M q uid = some (final, tr) ∧ genCalls tr = 1 ∧
      final.final_response = none ∧ final.error_message ≠ none ∧
      (sqlagent_process_query env M q uid).success = false := by
  have n0 : runNode env Node.init (initialAgentState q uid) = freshState q uid := by
    simp [runNode, initialize_state, initialAgentState, freshState]
  have r0 : route M Node.init (freshState q uid) = some Node.generate_sql := by
    simp [route]
  rcases hfail with hg | ⟨m, hg⟩
  · have n1 : runNode env Node.generate_sql (freshState q uid) =
        { freshState q uid with error_message := some "LLM chains not available" } := by
      simp [runNode, freshState, hg, generate_sql_node]
    have r1 : route M Node.generate_sql
        { freshState q uid with error_message := some "LLM chains not available" } =
        some Node.finalize := by
      simp [route, should_validate_sql, errTruthy, optStrTruthy, freshState]
    have n2 : runNode env Node.finalize
        { freshState q uid with error_message := some "LLM chains not available" } =
        { freshState q uid with error_message := some "LLM chains not available" } := by
      simp [runNode, finalize_state_node]
    have r2 : route M Node.finalize
        ({ freshState q uid with error_message := some "LLM chains not available" } : AgentState) =
        none := by
      simp [route]
    have hrun : workflowRunT env M q uid =
        some ({ freshState q uid with error_message := some "LLM chains not available" },
          [(Node.init, freshState q uid),
           (Node.generate_sql, { freshState q uid with error_message := some "LLM chains not available" }),
           (Node.finalize, { freshState q uid with error_message := some "LLM chains not available" })]) := by
      unfold workflowRunT
      rw [show (5 * M + 6 : Nat) = 5 * M + 5 + 1 from rfl, runLoopT_step env M _ _ _ _ _ n0 r0,
          show (5 * M + 5 : Nat) = 5 * M + 4 + 1 from rfl, runLoopT_step env M _ _ _ _ _ n1 r1,
          show (5 * M + 4 : Nat) = 5 * M + 3 + 1 from rfl, runLoopT_last env M _ _ _ _ n2 r2]
      simp
    refine ⟨_, _, hrun, by simp [genCalls], by simp [freshState], by simp, ?_⟩
    simp [sqlagent_process_query, hrun, process_query_result, freshState, optStrTruthy, pyStr]
  · have hne : ("SQL generation failed: " ++ m) ≠ "" := append_ne_empty_left _ _ (by decide)
    have n1 : runNode env Node.generate_sql (freshState q uid) =
        { freshState q uid with error_message := some ("SQL generation failed: " ++ m) } := by
      simp [runNode, freshState, hg, generate_sql_node]
    have r1 : route M Node.generate_sql
        { freshState q uid with error_message := some ("SQL generation failed: " ++ m) } =
        some Node.finalize := by
      simp [route, should_validate_sql, errTruthy, optStrTruthy, freshState, hne]
    have n2 : runNode env Node.finalize
        { freshState q uid with error_message := some ("SQL generation failed: " ++ m) } =
        { freshState q uid with error_message := some ("SQL generation failed: " ++ m) } := by
      simp [runNode, finalize_state_node]
    have r2 : route M Node.finalize
        ({ freshState q uid with error_message := some ("SQL generation failed: " ++ m) } : AgentState) =
        none := by
      simp [route]
    have hrun : workflowRunT env M q uid =
        some ({ freshState q uid with error_message := some ("SQL generation failed: " ++ m) },
          [(Node.init, freshState q uid),
           (Node.generate_sql, { freshState q uid with error_message := some ("SQL generation failed: " ++ m) }),
           (Node.finalize, { freshState q uid with error_message := some ("SQL generation failed: " ++ m) })]) := by
      unfold workflowRunT
      rw [show (5 * M + 6 : Nat) = 5 * M + 5 + 1 from rfl, runLoopT_step env M _ _ _ _ _ n0 r0,
          show (5 * M + 5 : Nat) = 5 * M + 4 + 1 from rfl, runLoopT_step env M _ _ _ _ _ n1 r1,
          show (5 * M + 4 : Nat) = 5 * M + 3 + 1 from rfl, runLoopT_last env M _ _ _ _ n2 r2]
      simp
    refine ⟨_, _, hrun, by simp [genCalls], by simp [freshState], by simp, ?_⟩
    simp [sqlagent_process_query, hrun, process_query_result, freshState, optStrTruthy, pyStr]

theorem C4_witness :
    ∃ final tr, workflowRunT envGenDown 3 "list customers" none = some (final, tr) ∧
      genCalls tr = 1 ∧ final.final_response = none ∧ final.error_message ≠ none ∧
      (sqlagent_process_query envGenDown 3 "list customers" none).success = false :=
  C4_generation_failure_fatal envGenDown 3 "list customers" none (Or.inl rfl)

/-- C5: a request with an empty question is rejected by the facade with
InvalidRequest before the workflow engine runs, and causes no Generator call
(and hence no Validator, Executor or Formatter call either, since every stage
is reached only through the engine run). -/
theorem C5_empty_question_rejected (env : Env) (M : Nat) (uid : Option String) :
    facade_process env M "" uid = Except.error "InvalidRequest" ∧
    facadeGenCalls env M "" uid = 0 := by
  simp [facade_process, facadeGenCalls]

/-- C6, claim as stated is false in one corner: with retry ceiling
MAX_SQL_RETRIES = 1 (a legal positive configuration), the lone failing attempt
still passes through increment_retry, so the terminal attempt counter is 2 and
exceeds the ceiling. -/
theorem C6_counterexample :
    (workflowRunT envAlwaysInvalid 1 "list customers" none).map
        (fun p => p.1.current_attempt) = some 2 ∧ ¬ (2 ≤ 1) :=
  ⟨rfl, by decide⟩

/-- C6 (amended): on every run, each state produced by the retry node has
sql_query, validation_result, query_results, execution_success and
error_message cleared (the last holds because the retry node is only reachable
with no truthy error, and every recorded error is a non-empty string), and for
a retry ceiling of at least 2 the attempt counter never exceeds the ceiling
anywhere in the run. -/
theorem C6_retry_clears_state (env : Env) (M : Nat) (q : String) (uid : Option String)
    (hM : 2 ≤ M) :
    ∃ final tr, workflowRunT env M q uid = some (final, tr) ∧
      (∀ p ∈ tr, p.1 = Node.increment_retry → clearedAfterRetry p.2) ∧
      (∀ p ∈ tr, p.2.current_attempt ≤ M) := by
  obtain ⟨r, tr, hrun, _, hinc, hatt⟩ := run_full env M q uid (M - 1) (by omega) (by omega)
  refine ⟨r, _, hrun, ?_, ?_⟩
  · simp only [List.forall_mem_cons]
    exact ⟨by simp, hinc⟩
  · simp only [List.forall_mem_cons]
    refine ⟨by simp [freshState]; omega, ?_⟩
    intro p hp
    have := hatt p hp
    omega

theorem C6_witness :
    2 ≤ 3 ∧ ∃ final tr, workflowRunT envAlwaysInvalid 3 "list customers" none = some (final, tr) ∧
      (∀ p ∈ tr, p.1 = Node.increment_retry → clearedAfterRetry p.2) ∧
      (∀ p ∈ tr, p.2.current_attempt ≤ 3) :=
  ⟨by decide, C6_retry_clears_state envAlwaysInvalid 3 "list customers" none (by decide)⟩

/-- C7: for every question and every collaborator behaviour, including raising
adapters (exceptions are converted to error_message at the adapter boundary as
in the source except-blocks), the workflow run reaches a final state and
process_query returns the QueryResponse mapped from it: the fallback branch for
a failed graph invocation is never taken. -/
theorem C7_always_returns (env : Env) (M : Nat) (q : String) (uid : Option String) :
    ∃ final tr, workflowRunT env M q uid = some (final, tr) ∧
      sqlagent_process_query env M q uid = process_query_result final := by
  obtain ⟨r, tr, hrun, _, _, _⟩ := run_full env M q uid M (by omega) (by omega)
  exact ⟨r, _, hrun, by simp [sqlagent_process_query, hrun]⟩

/-- C8: with identical collaborator responses and the same question, two
independent process_query calls return identical responses; the caller-supplied
user_id (the only other per-call input) never influences the response. -/
theorem C8_deterministic (env : Env) (M : Nat) (q : String) (uid1 uid2 : Option String) :
    sqlagent_process_query env M q uid1 = sqlagent_process_query env M q uid2 := by
  unfold sqlagent_process_query workflowRunT
  rw [← initialAgentState_user_id q uid2 uid1, runLoopT_user_id]
  cases runLoopT env M (5 * M + 6) Node.init (initialAgentState q uid2) with
  | none => simp
  | some r => simp [process_query_result_user_id]

/-- C9, claim as stated is false: on retry exhaustion no error message was
recorded, and the response answer renders the missing message as the text None
rather than falling back to the text Unknown error occurred: the source reads
the error with dict.get and a fallback, but the key is always present (set to
None by the initial state), so the fallback is dead. -/
theorem C9_counterexample :
    (sqlagent_process_query envAlwaysInvalid 3 "list customers" none).success = false ∧
    (sqlagent_process_query envAlwaysInvalid 3 "list customers" none).error_message = none ∧
    (sqlagent_process_query envAlwaysInvalid 3 "list customers" none).answer =
      "I apologize, but I couldn't process your question: None" ∧
    (sqlagent_process_query envAlwaysInvalid 3 "list customers" none).answer ≠
      "I apologize, but I couldn't process your question: Unknown error occurred" := by
  refine ⟨rfl, rfl, rfl, by decide⟩

/-- C9 (amended): the response success flag is true exactly when the final
state carries a truthy (non-empty) final_response; in that case error_message
is None and the answer is the final response; otherwise the answer is the
apology text with the recorded error message rendered Python-style (the text
None when absent), row_count is None and error_message is passed through. -/
theorem C9_response_mapping (env : Env) (M : Nat) (q : String) (uid : Option String)
    (final : AgentState) (tr : List (Node × AgentState))
    (hrun : workflowRunT env M q uid = some (final, tr)) :
    ((sqlagent_process_query env M q uid).success = true ↔
      optStrTruthy final.final_response = true) ∧
    (optStrTruthy final.final_response = true →
      (sqlagent_process_query env M q uid).error_message = none ∧
      (sqlagent_process_query env M q uid).answer = final.final_response.getD "") ∧
    (optStrTruthy final.final_response = false →
      (sqlagent_process_query env M q uid).answer =
        "I apologize, but I couldn't process your question: " ++ pyStr final.error_message ∧
      (sqlagent_process_query env M q uid).row_count = none ∧
      (sqlagent_process_query env M q uid).error_message = final.error_message) := by
  have hres : sqlagent_process_query env M q uid = process_query_result final := by
    simp [sqlagent_process_query, hrun]
  rw [hres]
  by_cases h : optStrTruthy final.final_response <;> simp [process_query_result, h]

theorem C9_witness :
    ((sqlagent_process_query envGenDown 3 "list customers" none).success = true ↔
      optStrTruthy genDownFinal.final_response = true) ∧
    (optStrTruthy genDownFinal.final_response = true →
      (sqlagent_process_query envGenDown 3 "list customers" none).error_message = none ∧
      (sqlagent_process_query envGenDown 3 "list customers" none).answer =
        genDownFinal.final_response.getD "") ∧
    (optStrTruthy genDownFinal.final_response = false →
      (sqlagent_process_query envGenDown 3 "list customers" none).answer =
        "I apologize, but I couldn't process your question: " ++ pyStr genDownFinal.error_message ∧
      (sqlagent_process_query envGenDown 3 "list customers" none).row_count = none ∧
      (sqlagent_process_query envGenDown 3 "list customers" none).error_message =
        genDownFinal.error_message) :=
  C9_response_mapping envGenDown 3 "list customers" none genDownFinal
    [(Node.init, freshState "list customers" none),
     (Node.generate_sql, genDownFinal), (Node.finalize, genDownFinal)] rfl

/-- C10: if the Executor reports success with an empty payload string, every
stage adapter has succeeded and yet the format stage records the error
No valid query results to format and the run ends with success = false. -/
theorem C10_empty_payload (env : Env) (M : Nat) (q : String) (uid : Option String)
    (sql : String) (hsql : sql ≠ "") (v : Verdict) (hvv : v.is_valid = true)
    (rc : Option Nat) (hgen1 : env.gen 1 = GenBeh.ok sql)
    (hval1 : env.val 1 = ValBeh.verdict v) (hexec1 : env.exec 1 = ExecBeh.result true "" rc) :
    ∃ final tr, workflowRunT env M q uid = some (final, tr) ∧
      final.error_message = some "No valid query results to format" ∧
      final.final_response = none ∧
      (sqlagent_process_query env M q uid).success = false ∧
      (sqlagent_process_query env M q uid).error_message =
        some "No valid query results to format" := by
  have n0 : runNode env Node.init (initialAgentState q uid) = freshState q uid := by
    simp [runNode, initialize_state, initialAgentState, freshState]
  have r0 : route M Node.init (freshState q uid) = some Node.generate_sql := by
    simp [route]
  have n1 : runNode env Node.generate_sql (freshState q uid) = { freshState q uid with sql_query := some sql } := by
    simp [runNode, freshState, hgen1, generate_sql_node]
  have r1 : route M Node.generate_sql { freshState q uid with sql_query := some sql } = some Node.validate_sql := by
    simp [route, should_validate_sql, errTruthy, optStrTruthy, freshState, hsql]
  have n2 : runNode env Node.validate_sql { freshState q uid with sql_query := some sql } = { freshState q uid with sql_query := some sql, validation_result := some v } := by
    simp [runNode, freshState, hval1, validate_sql_node, optStrTruthy, hsql]
  have r2 : route M Node.validate_sql { freshState q uid with sql_query := some sql, validation_result := some v } = some Node.execute_sql := by
    simp [route, should_execute_sql, errTruthy, optStrTruthy, freshState, validationIsValid, hvv]
  have n3 : runNode env Node.execute_sql { freshState q uid with sql_query := some sql, validation_result := some v } = { freshState q uid with sql_query := some sql, validation_result := some v, execution_success := true, query_results := some "", row_count := rc } := by
    simp [runNode, freshState, hexec1, execute_sql_node, optStrTruthy, hsql]
  have r3 : route M Node.execute_sql { freshState q uid with sql_query := some sql, validation_result := some v, execution_success := true, query_results := some "", row_count := rc } = some Node.format_response := by
    simp [route, should_format_response, errTruthy, optStrTruthy, freshState]
  have n4 : runNode env Node.format_response { freshState q uid with sql_query := some sql, validation_result := some v, execution_success := true, query_results := some "", row_count := rc } = { freshState q uid with sql_query := some sql, validation_result := some v, execution_success := true, query_results := some "", row_count := rc, error_message := some "No valid query results to format" } := by
    simp [runNode, freshState, format_response_node, optStrTruthy]
  have r4 : route M Node.format_response { freshState q uid with sql_query := some sql, validation_result := some v, execution_success := true, query_results := some "", row_count := rc, error_message := some "No valid query results to format" } = some Node.finalize := by
    simp [route]
  have n5 : runNode env Node.finalize { freshState q uid with sql_query := some sql, validation_result := some v, execution_success := true, query_results := some "", row_count := rc, error_message := some "No valid query results to format" } = { freshState q uid with sql_query := some sql, validation_result := some v, execution_success := true, query_results := some "", row_count := rc, error_message := some "No valid query results to format" } := by
    simp [runNode, finalize_state_node]
  have r5 : route M Node.finalize ({ freshState q uid with sql_query := some sql, validation_result := some v, execution_success := true, query_results := some "", row_count := rc, error_message := some "No valid query results to format" } : AgentState) = none := by
    simp [route]
  have hrun : workflowRunT env M q uid =
      some ({ freshState q uid with sql_query := some sql, validation_result := some v, execution_success := true, query_results := some "", row_count := rc, error_message := some "No valid query results to format" },
        [(Node.init, freshState q uid),
         (Node.generate_sql, { freshState q uid with sql_query := some sql }),
         (Node.validate_sql, { freshState q uid with sql_query := some sql, validation_result := some v }),
         (Node.execute_sql, { freshState q uid with sql_query := some sql, validation_result := some v, execution_success := true, query_results := some "", row_count := rc }),
         (Node.format_response, { freshState q uid with sql_query := some sql, validation_result := some v, execution_success := true, query_results := some "", row_count := rc, error_message := some "No valid query results to format" }),
         (Node.finalize, { freshState q uid with sql_query := some sql, validation_result := some v, execution_success := true, query_results := some "", row_count := rc, error_message := some "No valid query results to format" })]) := by
    unfold workflowRunT
    rw [show (5 * M + 6 : Nat) = 5 * M + 5 + 1 from rfl, runLoopT_step env M _ _ _ _ _ n0 r0,
        show (5 * M + 5 : Nat) = 5 * M + 4 + 1 from rfl, runLoopT_step env M _ _ _ _ _ n1 r1,
        show (5 * M + 4 : Nat) = 5 * M + 3 + 1 from rfl, runLoopT_step env M _ _ _ _ _ n2 r2,
        show (5 * M + 3 : Nat) = 5 * M + 2 + 1 from rfl, runLoopT_step env M _ _ _ _ _ n3 r3,
        show (5 * M + 2 : Nat) = 5 * M + 1 + 1 from rfl, runLoopT_step env M _ _ _ _ _ n4 r4,
        show (5 * M + 1 : Nat) = 5 * M + 0 + 1 from rfl, runLoopT_last env M _ _ _ _ n5 r5]
    simp
  refine ⟨_, _, hrun, by simp, by simp [freshState], ?_, ?_⟩
  · simp [sqlagent_process_query, hrun, process_query_result, freshState, optStrTruthy]
  · simp [sqlagent_process_query, hrun, process_query_result, freshState, optStrTruthy]

theorem C10_witness :
    ∃ final tr, workflowRunT envEmptyPayload 3 "list customers" none = some (final, tr) ∧
      final.error_message = some "No valid query results to format" ∧
      final.final_response = none ∧
      (sqlagent_process_query envEmptyPayload 3 "list customers" none).success = false ∧
      (sqlagent_process_query envEmptyPayload 3 "list customers" none).error_message =
        some "No valid query results to format" :=
  C10_empty_payload envEmptyPayload 3 "list customers" none
    "SELECT * FROM customers" (by decide) ⟨true, none, []⟩ rfl none rfl rfl rfl
